import Mathlib

/-!
Verification of timersjs (src/timers.js) against its specification.

The file shallowly embeds the parts of src/timers.js relevant to the
claims: the process-wide timer registry (`timerPool`), the per-variant
`kill`/`cancel`/`restart` semantics of the prototype hierarchy, the
`MultiTimer` internal callback, the `OneShotTimer` inner callback, and
the `callback` getter/setter of the abstract timer.

Two facts about the JavaScript source drive most of the embedding:

1. `Timer.prototype.kill` (line 195) and `Timer.prototype.cancel`
   (line 187) invoke the base-class methods as `Timer.base.kill()` and
   `Timer.base.cancel()` - method calls on the object `Timer.base`,
   which is `AbstractTimer.prototype`.  The base method therefore runs
   with `AbstractTimer.prototype` as its receiver, not with the timer
   being killed.  `AbstractTimer.prototype` is the plain object literal
   of line 62; it has no `id` field, so `removeTimerFromPool` (line 37)
   executes `timerPool.splice(undefined, 1)`, which JavaScript coerces
   to `splice(0, 1)`: the element at position 0 is removed.
   `IntervalTimer` (lines 222-233) uses `.call(this)` and is not
   affected.

2. The `restart` overrides of `Timer` (lines 201-203), `IntervalTimer`
   (lines 238-241) and `OneShotTimer` (lines 314-320) never assign
   `this._running`; only `AbstractTimer.prototype.restart`
   (lines 118-122) sets it to `true`.  Every timer produced by the
   public factories dispatches to one of the overrides, so `_running`
   stays `false` for the instance's whole life.

During library load five prototype instances are constructed and added
to the pool (lines 179, 216, 280, 307, 351), receiving ids 0..4; this
is why `poolSize` (line 362) subtracts 5.  `Timer.prototype` and
`IntervalTimer.prototype` are built with `new AbstractTimer()` and so
run the abstract `restart`; the other three run `Timer`'s.
-/

namespace TimersJS

/-- Which index a timer's `kill()` ultimately passes to
`timerPool.splice(_, 1)`.  `viaProto` is the Timer family
(`Timer`, `MultiTimer`, `OneShotTimer`, `OneShotTrigger`): their kill
reaches `AbstractTimer.prototype.kill` with the prototype as receiver,
whose `id` is `undefined`, coerced by `splice` to index 0.  `viaSelf`
is `IntervalTimer`, whose kill uses `.call(this)` and so splices at the
timer's own `id` field. -/
inductive KillKind
  | viaProto
  | viaSelf
  deriving DecidableEq

/-- A registry entry: the `id` assigned by `addTimerToPool`
(lines 31-34, the push position) and the kill dispatch of its variant. -/
structure PoolTimer where
  id : Nat
  kind : KillKind
  deriving DecidableEq

/-- The pool right after the library loads: the five prototype
instances created at lines 179, 216, 280, 307 and 351, with ids 0-4.
`IntervalTimer.prototype` (id 1) is the only one whose `kill` splices
at its own id. -/
def initPool : List PoolTimer :=
  [⟨0, .viaProto⟩, ⟨1, .viaSelf⟩, ⟨2, .viaProto⟩, ⟨3, .viaProto⟩, ⟨4, .viaProto⟩]

/-- The splice index used by `removeTimerFromPool` when `t.kill()`
runs: 0 for the Timer family (undefined id of the prototype receiver),
`t.id` for `IntervalTimer`. -/
def killIndex : PoolTimer → Nat
  | ⟨_, .viaProto⟩ => 0
  | ⟨i, .viaSelf⟩ => i

/-- Effect of `t.kill()` on the pool: `timerPool.splice(idx, 1)`
(line 37).  `List.eraseIdx` matches `splice(idx, 1)` exactly: it
removes the element at `idx` and leaves the list unchanged when `idx`
is out of range. -/
def killT (p : List PoolTimer) (t : PoolTimer) : List PoolTimer :=
  p.eraseIdx (killIndex t)

/-- `TimersJS.poolSize` (lines 360-363): `timerPool.length - 5`,
the 5 accounting for the prototype instances. -/
def poolSize (p : List PoolTimer) : Int :=
  (p.length : Int) - 5

/-- One iteration of the `killAllTimers` loop (lines 381-385):
`timerPool[0].kill()` while the pool is nonempty. -/
def killAllStep (p : List PoolTimer) : List PoolTimer :=
  match p with
  | [] => []
  | t :: _ => killT p t

/-- `addTimerToPool` (lines 31-34) followed by the id assignment of the
`AbstractTimer` constructor (line 57): push, id := new length - 1. -/
def constructOne (p : List PoolTimer) (k : KillKind) : List PoolTimer :=
  p ++ [⟨p.length, k⟩]

/-- A run of constructions. -/
def constructN : List KillKind → List PoolTimer → List PoolTimer
  | [], p => p
  | k :: ks, p => constructN ks (constructOne p k)

/-- A run of kills, each applied to some previously obtained timer
reference (its `id` and variant are frozen at its construction). -/
def killSeq : List PoolTimer → List PoolTimer → List PoolTimer
  | [], p => p
  | t :: ts, p => killSeq ts (killT p t)

/-- The first user timer created after load: a `Timer` from
`TimersJS.timer`, pushed at position 5, so `id = 5`, kill via the
prototype receiver. -/
def timerA : PoolTimer := ⟨5, .viaProto⟩

/-- The pool after `TimersJS.timer(100, f)` as the only user call. -/
def poolWithTimerA : List PoolTimer := initPool ++ [timerA]

/-- Clearing a host primitive handle: `clearTimeout` / `clearInterval`
with the stored `_timer` value.  Passing `null`/`undefined` is a host
no-op; a concrete handle is withdrawn from the host's pending set. -/
def hostClear (host : Finset Nat) : Option Nat → Finset Nat
  | none => host
  | some h => host.erase h

/-- The five timer variants reachable through the public factory
surface (lines 387-405): `timer`, `repeater`, `multi`, `oneShot`,
`trigger`. -/
inductive Variant
  | delayT
  | repeatT
  | multiT
  | oneShotT
  | triggerT
  deriving DecidableEq

/-- The mutable own fields a timer instance receives in the
`AbstractTimer` constructor (lines 49-60). -/
structure TFields where
  timer : Option Nat
  running : Bool
  paused : Bool
  intervalMs : Int
  callbackTok : Nat
  timerFn : Option Nat
  deriving DecidableEq

/-- The state a single timer's `cancel()` can reach: the timer's own
fields, the fields of the shared `AbstractTimer.prototype` object
(mutated by the receiver-less `Timer.base.cancel()` of line 187), the
host's pending handles, and the registry membership (ids). -/
structure World where
  self : TFields
  protoTimer : Option Nat
  protoRunning : Bool
  host : Finset Nat
  pool : List Nat

/-- `Timer.prototype.cancel` (lines 185-188), shared by `Timer`,
`MultiTimer`, `OneShotTimer` and `OneShotTrigger` (none override it):
`clearTimeout(this.timer())` clears the instance's handle on the host,
then `Timer.base.cancel()` runs with `AbstractTimer.prototype` as
receiver and nulls the prototype's `_timer`/`_running` - the
instance's own fields are untouched. -/
def timerCancel (w : World) : World :=
  { w with host := hostClear w.host w.self.timer,
           protoTimer := none, protoRunning := false }

/-- `IntervalTimer.prototype.cancel` (lines 222-225):
`clearInterval(this.timer())`, then the base cancel with the correct
receiver (`.call(this)`), which nulls the instance's `_timer` and
clears `_running` (lines 98-101). -/
def intervalCancel (w : World) : World :=
  { w with host := hostClear w.host w.self.timer,
           self := { w.self with timer := none, running := false } }

/-- Which `cancel` implementation each variant dispatches to. -/
def cancelOf : Variant → World → World
  | .repeatT => intervalCancel
  | _ => timerCancel

/-- A registry entry as seen by the `cancelAllTimers` loop: id, kill
dispatch, and the own fields its `cancel` may touch. -/
structure CEntry where
  id : Nat
  kind : KillKind
  timer : Option Nat
  running : Bool
  paused : Bool

/-- Global state walked by `cancelAllTimers`: the pool, the shared
prototype fields and the host's pending handles. -/
structure CState where
  pool : List CEntry
  protoTimer : Option Nat
  protoRunning : Bool
  host : Finset Nat

/-- One iteration of the `cancelAllTimers` loop (lines 375-379):
`timerPool[0].cancel()`.  The Timer family's cancel mutates only the
host and the shared prototype (receiver bug of line 187);
`IntervalTimer`'s cancel nulls its own `_timer` and `_running`.
Neither touches pool membership. -/
def cancelAllStep (s : CState) : CState :=
  match s.pool with
  | [] => s
  | e :: rest =>
    match e.kind with
    | .viaProto =>
        { s with host := hostClear s.host e.timer,
                 protoTimer := none, protoRunning := false }
    | .viaSelf =>
        { s with host := hostClear s.host e.timer,
                 pool := { e with timer := none, running := false } :: rest }

/-- The `_running`/`_paused` flags of a timer plus whether a host
handle has been armed for it. -/
structure Flags where
  running : Bool
  paused : Bool
  scheduled : Bool
  deriving DecidableEq

/-- `AbstractTimer.prototype.restart` (lines 118-122): `cancel()`
(which sets `_running` to false and is then overwritten), then
`_running := true`, `_paused := false`.  This is the only place in the
source that sets `_running` to `true`. -/
def abstractRestartF (f : Flags) : Flags :=
  { f with running := true, paused := false }

/-- `Timer.prototype.restart` (lines 201-203): only
`this.timer(setTimeout(this.callback(), this.interval()))` - it arms a
host handle and assigns `_timer`, and never touches `_running` or
`_paused`. -/
def timerRestartF (f : Flags) : Flags :=
  { f with scheduled := true }

/-- `IntervalTimer.prototype.restart` (lines 238-241): `this.cancel()`
(which sets `_running := false`, lines 98-101 via 222-225) and then
`setInterval`; again `_running` is never set to `true`. -/
def intervalRestartF (f : Flags) : Flags :=
  { f with running := false, scheduled := true }

/-- `OneShotTimer.prototype.restart` (lines 314-320): return early
when `!this._paused && this._running`, otherwise the Timer restart. -/
def oneShotRestartF (f : Flags) : Flags :=
  if !f.paused && f.running then f else timerRestartF f

/-- The `restart` override each factory variant dispatches to
(`MultiTimer` inherits `Timer`'s, `OneShotTrigger` inherits
`OneShotTimer`'s). -/
def restartOf : Variant → Flags → Flags
  | .delayT => timerRestartF
  | .repeatT => intervalRestartF
  | .multiT => timerRestartF
  | .oneShotT => oneShotRestartF
  | .triggerT => oneShotRestartF

/-- The `AbstractTimer` constructor (lines 49-60): `_running := false`,
`_paused := false`, register, then `this.restart()` - which dispatches
to the variant's override. -/
def constructFlags (v : Variant) : Flags :=
  restartOf v { running := false, paused := false, scheduled := false }

/-- Events emitted by the `MultiTimer` internal callback
(lines 259-272): an invocation of the caller's callback with the
running total as its argument, the invocation of the completion
callback, and the timer's self-`kill()`. -/
inductive MEvent
  | call (k : Nat)
  | complete
  | killSelf
  deriving DecidableEq

/-- The fire sequence of a `MultiTimer` (lines 257-279).  Each host
fire runs the internal callback: `if (repetitions-- > 0)` invokes the
caller's callback with `totalRepetitions`, increments it, and
`this.restart()` arms the next fire (modeled by the recursive call);
otherwise it invokes the completion callback, then `this.kill()`, and
arms nothing, so the sequence ends.  The first fire exists because the
constructor's `restart` armed a handle. -/
def multiRun (reps : Int) (total : Nat) : List MEvent :=
  if h : 0 < reps then
    MEvent.call total :: multiRun (reps - 1) (total + 1)
  else
    [MEvent.complete, MEvent.killSelf]
termination_by reps.toNat
decreasing_by omega

/-- A scheduled-handle list and `List.erase`: `clearTimeout(h)`
withdraws a pending handle; handles are issued by a counter so they
are distinct. -/
def listClear (pending : List Nat) : Option Nat → List Nat
  | none => pending
  | some h => pending.erase h

/-- State of a single `OneShotTimer` scenario: the host's pending
handles, the `_timer` field (the latest armed handle, line 202), the
flags, whether `innerCallback.callbackFunction` is still set (line 303;
nothing in the source ever clears it), the number of invocations of
the caller's callback, and the next fresh host handle. -/
structure OSState where
  pending : List Nat
  timerF : Option Nat
  running : Bool
  paused : Bool
  armed : Bool
  cbCount : Nat
  next : Nat
  deriving DecidableEq

/-- `Timer.prototype.restart` (lines 201-203) for the one-shot
scenario: arm a fresh handle (without clearing the previous one) and
store it in `_timer`. -/
def osTimerRestart (s : OSState) : OSState :=
  { s with pending := s.pending ++ [s.next],
           timerF := some s.next, next := s.next + 1 }

/-- `OneShotTimer.prototype.restart` (lines 314-320): early return
when `!this._paused && this._running`, else the Timer restart. -/
def osRestart (s : OSState) : OSState :=
  if !s.paused && s.running then s else osTimerRestart s

/-- Constructing a `OneShotTimer` (lines 294-306 and 49-60): flags
start false, `callbackFunction` is set, and the constructor's
`this.restart()` dispatches to the one-shot override, whose guard
fails (`_running` is false), so a first handle is armed. -/
def osConstruct : OSState :=
  osRestart { pending := [], timerF := none, running := false, paused := false,
              armed := true, cbCount := 0, next := 0 }

/-- `Timer.prototype.kill` (lines 193-196) as it affects this
scenario: `this.cancel()` clears the handle currently stored in
`_timer`; the rest of the kill runs with the prototype as receiver and
touches the registry (modeled in the pool embedding) but not this
state.  Note it does not clear `callbackFunction`. -/
def osKill (s : OSState) : OSState :=
  { s with pending := listClear s.pending s.timerF }

/-- The host fires pending handle `h`: the handle is spent, and the
memoized wrapper runs the inner callback (lines 296-302): if
`callbackFunction` is set, invoke the caller's callback, then
`this.kill()`, then enqueue the closure for reclamation. -/
def osFire (s : OSState) (h : Nat) : OSState :=
  if h ∈ s.pending then
    let s1 := { s with pending := s.pending.erase h }
    if s1.armed then osKill { s1 with cbCount := s1.cbCount + 1 } else s1
  else s

/-- State of a single `MultiTimer` instance together with its host
handles: the counters stored on the internal callback (lines 273-276),
the events observed so far, the host's pending handles, the `_timer`
field, and the next fresh handle. -/
structure MTState where
  reps : Int
  total : Nat
  events : List MEvent
  pending : List Nat
  timerF : Option Nat
  next : Nat
  deriving DecidableEq

/-- One invocation of the `MultiTimer` wrapper (lines 139-144 resolving
to the internal callback of lines 259-272).  `repetitions-- > 0` tests
then decrements; the positive branch records the caller-callback
invocation, increments `totalRepetitions` and restarts
(`Timer.prototype.restart`: arm a fresh handle, store it in `_timer`);
the exhausted branch records the completion callback and the
self-kill, whose `cancel` clears the handle stored in `_timer`.
Nothing clears the wrapper's `timerCallback`, so this function is also
what a late host invocation of the retired wrapper executes. -/
def mtWrapperInvoke (s : MTState) : MTState :=
  if 0 < s.reps then
    { s with reps := s.reps - 1, total := s.total + 1,
             events := s.events ++ [MEvent.call s.total],
             pending := s.pending ++ [s.next],
             timerF := some s.next, next := s.next + 1 }
  else
    { s with reps := s.reps - 1,
             events := s.events ++ [MEvent.complete, MEvent.killSelf],
             pending := listClear s.pending s.timerF }

/-- Constructing a `MultiTimer` (lines 257-279): counters initialized,
and the constructor's restart arms handle 0. -/
def mtConstruct (reps : Int) : MTState :=
  { reps := reps, total := 0, events := [], pending := [0],
    timerF := some 0, next := 1 }

/-- The host fires pending handle `h`: the handle is spent and the
wrapper runs. -/
def mtHostFire (s : MTState) (h : Nat) : MTState :=
  if h ∈ s.pending then mtWrapperInvoke { s with pending := s.pending.erase h }
  else s

/-- A user-initiated `kill()` on the `MultiTimer`
(`Timer.prototype.kill`, lines 193-196): `cancel` clears the handle in
`_timer`; the registry splice is modeled in the pool embedding.  The
wrapper object and its `timerCallback` target survive unchanged. -/
def mtKill (s : MTState) : MTState :=
  { s with pending := listClear s.pending s.timerF }

/-- State for the `callback` getter/setter of `AbstractTimer`
(lines 130-148) on a `Timer`: the caller-supplied callback (a token),
the memoized wrapper `_timerFn` (identified by the callback it
captured at build time, line 143), the flags, the `_timer` field, the
pending host handles paired with the wrapper each was armed with, and
the fresh-handle counter. -/
structure CBState where
  callbackTok : Nat
  timerFn : Option Nat
  running : Bool
  paused : Bool
  timerF : Option Nat
  pending : List (Nat × Nat)
  next : Nat
  deriving DecidableEq

/-- The getter branch of `callback` (lines 137-146): if `_timerFn` is
null, build the wrapper capturing the current `_callback` and memoize
it; return the wrapper. -/
def cbGetter (s : CBState) : CBState × Nat :=
  match s.timerFn with
  | some w => (s, w)
  | none => ({ s with timerFn := some s.callbackTok }, s.callbackTok)

/-- `Timer.prototype.restart` (lines 201-203):
`setTimeout(this.callback(), this.interval())` - the getter builds or
reuses the wrapper, a handle is armed carrying that wrapper, and
`_timer` records it. -/
def cbTimerRestart (s : CBState) : CBState :=
  let g := cbGetter s
  { g.1 with pending := g.1.pending ++ [(g.1.next, g.2)],
             timerF := some g.1.next, next := g.1.next + 1 }

/-- Constructing a `Timer` with callback token `tok` (lines 49-60,
175-177): fields initialized (`_running := false`, `_timerFn := null`),
then the constructor's `this.restart()` runs the Timer override. -/
def cbConstruct (tok : Nat) : CBState :=
  cbTimerRestart { callbackTok := tok, timerFn := none, running := false,
                   paused := false, timerF := none, pending := [], next := 0 }

/-- The setter branch of `callback` (lines 130-136): store the new
callback, discard the memoized wrapper, and restart only if
`this.isRunning()` - which reads the `_running` field (lines 91-93). -/
def cbSet (s : CBState) (tok : Nat) : CBState :=
  let s1 := { s with callbackTok := tok, timerFn := none }
  if s1.running then cbTimerRestart s1 else s1

end TimersJS

namespace TimersJS

/-- Helper for C5: the singleton `IntervalTimer.prototype` pool is a
fixed point of the kill-all loop body, since its kill splices at
index 1 of a one-element list. -/
theorem killAllStep_fix : killAllStep [⟨1, .viaSelf⟩] = [⟨1, .viaSelf⟩] := rfl

/-- Helper for C5: four iterations of the loop body starting from the
freshly loaded pool reach that fixed point. -/
theorem killAllStep_iter4 : killAllStep^[4] initPool = [⟨1, .viaSelf⟩] := by decide

/-- Helper for C5: the fixed point persists under iteration. -/
theorem killAllStep_iter_fix (m : Nat) :
    killAllStep^[m] [⟨1, .viaSelf⟩] = [⟨1, .viaSelf⟩] := by
  induction m with
  | zero => rfl
  | succ m ih => rw [Function.iterate_succ_apply, killAllStep_fix, ih]

/-- C1: refuted on the code.  The claim says `kill()` on a live timer
removes that timer (and only it) and that a second `kill()` changes
nothing further.  On the embedded code, killing the sole user `Timer`
(id 5) removes pool position 0 (`Timer.prototype`, id 0) instead - the
base kill runs with `AbstractTimer.prototype` as receiver and splices
at its undefined id - so the timer stays registered while
`activeTimerCount` drops by 1, and a second `kill()` drops the count
by 1 again (2 in total), removing yet another unrelated entry. -/
theorem kill_removes_wrong_entry :
    timerA ∈ killT poolWithTimerA timerA ∧
    (⟨0, KillKind.viaProto⟩ : PoolTimer) ∉ killT poolWithTimerA timerA ∧
    poolSize (killT poolWithTimerA timerA) = poolSize poolWithTimerA - 1 ∧
    timerA ∈ killT (killT poolWithTimerA timerA) timerA ∧
    poolSize (killT (killT poolWithTimerA timerA) timerA) =
      poolSize poolWithTimerA - 2 := by
  decide

/-- C5: refuted on the code.  `killAllTimers` repeatedly kills
`timerPool[0]`, but once `IntervalTimer.prototype` (id 1) reaches
position 0 its kill splices at index 1 and, when it is the last
element, removes nothing: the pool never empties and the `while` loop
of lines 381-385 never terminates, so `activeTimerCount()` never
reaches 0.  This holds already for the freshly loaded registry with
zero user timers. -/
theorem killAllTimers_never_terminates (n : Nat) :
    0 < (killAllStep^[n] initPool).length := by
  rcases Nat.lt_or_ge n 4 with h | h
  · interval_cases n <;> decide
  · obtain ⟨m, rfl⟩ := Nat.exists_eq_add_of_le h
    rw [Nat.add_comm, Function.iterate_add_apply, killAllStep_iter4,
      killAllStep_iter_fix]
    decide

end TimersJS

namespace TimersJS

/-- Helper for C9: a construction run on a pool whose ids are exactly
the positions 0..len-1 keeps that shape, hence keeps the ids nodup. -/
theorem constructN_ids_nodup (ks : List KillKind) (p : List PoolTimer)
    (hp : p.map PoolTimer.id = List.range p.length) :
    ((constructN ks p).map PoolTimer.id).Nodup := by
  induction ks generalizing p with
  | nil => rw [constructN, hp]; exact List.nodup_range _
  | cons k ks ih =>
      rw [constructN]
      apply ih
      rw [constructOne, List.map_append, hp, List.length_append]
      simp [List.range_succ]

/-- Helper for C9: a kill is a `splice`, i.e. an `eraseIdx`, so the
surviving entries form a sublist and distinct ids stay distinct. -/
theorem killT_ids_nodup (p : List PoolTimer) (t : PoolTimer)
    (hp : (p.map PoolTimer.id).Nodup) :
    ((killT p t).map PoolTimer.id).Nodup :=
  hp.sublist ((p.eraseIdx_sublist (killIndex t)).map PoolTimer.id)

/-- Helper for C9: a whole run of kills preserves distinctness. -/
theorem killSeq_ids_nodup (ts : List PoolTimer) (p : List PoolTimer)
    (hp : (p.map PoolTimer.id).Nodup) :
    ((killSeq ts p).map PoolTimer.id).Nodup := by
  induction ts generalizing p with
  | nil => exact hp
  | cons t ts ih => exact ih _ (killT_ids_nodup p t hp)

/-- C9, counterexample: the claim as stated is false.  Create a
`Timer` (id 5), kill it (which splices position 0, see C1, so the
timer itself survives), then create another timer: the new timer is
pushed at position 5 of a 5-element pool and receives id 5 as well.
Both carriers of id 5 are live, so the live ids are not pairwise
distinct. -/
theorem construct_after_kill_id_collision :
    ¬ ((constructOne (killT (constructOne initPool .viaProto) timerA)
        .viaProto).map PoolTimer.id).Nodup := by
  decide

/-- C9, amended: ids are assigned at construction and never mutated
(no operation of the embedding writes to `id`), and in every state
reached by a run of constructions followed by a run of kills - that
is, as long as no construction happens after a kill - the ids of the
live timers are pairwise distinct.  A construction after a kill can
re-issue a live id (see the counterexample). -/
theorem ids_distinct_when_constructs_precede_kills
    (ks : List KillKind) (ts : List PoolTimer) :
    ((killSeq ts (constructN ks initPool)).map PoolTimer.id).Nodup :=
  killSeq_ids_nodup ts _ (constructN_ids_nodup ks initPool (by decide))

/-- Helper for C6: one pass of the cancel-all loop body never changes
how many timers are registered, because `cancel()` does not touch
pool membership. -/
theorem cancelAllStep_pool_length (s : CState) :
    (cancelAllStep s).pool.length = s.pool.length := by
  rcases s with ⟨pool, pt, pr, host⟩
  cases pool with
  | nil => rfl
  | cons e rest => cases h : e.kind <;> simp [cancelAllStep, h]

/-- C6: refuted on the code.  `cancelAllTimers` (lines 375-379) runs
`while (timerPool.length > 0) timerPool[0].cancel()`, but `cancel`
never removes anything from the pool, so the pool's length is
invariant under every number of loop iterations.  Since the pool
always holds at least the five prototype instances, the guard never
becomes false and the loop never terminates - there is no
"afterwards".  (The part of the claim that `cancel` leaves registry
membership untouched is exactly what this invariance expresses.) -/
theorem cancelAllTimers_never_terminates (s : CState) (n : Nat) :
    (cancelAllStep^[n] s).pool.length = s.pool.length := by
  induction n generalizing s with
  | zero => rfl
  | succ n ih =>
      rw [Function.iterate_succ_apply, ih, cancelAllStep_pool_length]

/-- Helper for C10: withdrawing the same handle from the host twice is
the same as withdrawing it once. -/
theorem hostClear_idem (host : Finset Nat) (o : Option Nat) :
    hostClear (hostClear host o) o = hostClear host o := by
  cases o with
  | none => rfl
  | some h => simp [hostClear, Finset.erase_idem]

/-- Helper for C10: clearing a `null` handle is a host no-op. -/
theorem hostClear_none (host : Finset Nat) : hostClear host none = host := rfl

/-- C10: confirmed.  For every variant and every state (own fields,
shared prototype fields, host handles, registry membership), calling
`cancel()` twice in a row leaves exactly the state of calling it once:
the Timer family's cancel clears an unchanged handle and re-nulls the
prototype fields, and `IntervalTimer`'s second cancel clears a `null`
handle (a host no-op) and re-nulls its own fields. -/
theorem cancel_idempotent (v : Variant) (w : World) :
    cancelOf v (cancelOf v w) = cancelOf v w := by
  rcases w with ⟨⟨t, r, pa, i, c, fn⟩, pt, pr, host, pool⟩
  cases v <;>
    simp [cancelOf, timerCancel, intervalCancel, hostClear_idem, hostClear_none]

end TimersJS

namespace TimersJS

/-- C2: refuted on the code.  For every factory variant, construction
does arm a host handle (the scheduling half of the claim), but the
`restart` override that the constructor's `this.restart()` dispatches
to never assigns `_running`, so `isRunning()` reports `false`
immediately after construction, not `true`. -/
theorem construct_reports_not_running (v : Variant) :
    (constructFlags v).running = false ∧ (constructFlags v).scheduled = true := by
  cases v <;> exact ⟨rfl, rfl⟩

/-- Helper for C3: unfolding `multiRun` in the positive branch. -/
theorem multiRun_pos (reps : Int) (total : Nat) (h : 0 < reps) :
    multiRun reps total = MEvent.call total :: multiRun (reps - 1) (total + 1) := by
  conv_lhs => rw [multiRun]
  rw [dif_pos h]

/-- Helper for C3: unfolding `multiRun` in the exhausted branch. -/
theorem multiRun_nonpos (reps : Int) (total : Nat) (h : ¬ 0 < reps) :
    multiRun reps total = [MEvent.complete, MEvent.killSelf] := by
  conv_lhs => rw [multiRun]
  rw [dif_neg h]

/-- Helper for C3: the trace for a natural repetition count, with the
running total generalized. -/
theorem multiRun_ofNat (n : Nat) : ∀ total : Nat,
    multiRun (n : Int) total =
      (List.range n).map (fun k => MEvent.call (total + k)) ++
        [MEvent.complete, MEvent.killSelf] := by
  induction n with
  | zero =>
      intro total
      rw [multiRun_nonpos _ _ (by norm_num)]
      simp
  | succ n ih =>
      intro total
      have h1 : (0 : Int) < ((n + 1 : Nat) : Int) := by exact_mod_cast Nat.succ_pos n
      have h2 : ((n + 1 : Nat) : Int) - 1 = (n : Int) := by push_cast; ring
      have hfun : ((fun k => MEvent.call (total + k)) ∘ Nat.succ) =
          fun k => MEvent.call (total + 1 + k) := by
        funext k
        show MEvent.call (total + Nat.succ k) = MEvent.call (total + 1 + k)
        have hk : total + Nat.succ k = total + 1 + k := by omega
        rw [hk]
      rw [multiRun_pos _ _ h1, h2, ih, List.range_succ_eq_map, List.map_cons,
        List.map_map, hfun, List.cons_append]
      simp

/-- C3: confirmed.  For any repetition count `reps` (an integer, as in
the source), the `MultiTimer` fire sequence is exactly: the caller's
callback invoked `reps.toNat` times with arguments 0, 1, ...,
`reps.toNat - 1` in increasing order, then the completion callback
invoked exactly once, then the self-`kill()`.  For `reps = N ≥ 0` that
is exactly `N` invocations in order `0..N-1`; for `reps ≤ 0` the
caller's callback is never invoked (`toNat` is 0).  The completion
event strictly precedes the kill, the operation that removes the timer
from the registry.  (That the kill's splice in fact removes a wrong
registry entry is the defect recorded at C1; it does not affect the
callback counts and ordering established here.) -/
theorem multiTimer_trace_exact (reps : Int) :
    multiRun reps 0 =
      (List.range reps.toNat).map MEvent.call ++
        [MEvent.complete, MEvent.killSelf] := by
  rcases le_or_lt reps 0 with h | h
  · rw [multiRun_nonpos _ _ (not_lt.mpr h), Int.toNat_of_nonpos h]
    simp
  · have htr := multiRun_ofNat reps.toNat 0
    rw [Int.toNat_of_nonneg h.le] at htr
    rw [htr]
    simp

/-- C4: refuted on the code.  The no-op guard of
`OneShotTimer.prototype.restart` tests `this._running`, which is never
`true` (see C2), so each `restart()` before the first fire arms one
more host handle without clearing the previous ones.  With two rapid
`restart()` calls three handles are pending; the fire of handle 0
invokes the caller's callback and its self-kill clears only the
latest handle (`_timer` = 2), so handle 1 still fires and - the inner
callback's `callbackFunction` is never cleared - invokes the caller's
callback a second time. -/
theorem oneShot_double_restart_fires_twice :
    (osRestart (osRestart osConstruct)).pending = [0, 1, 2] ∧
    (osFire (osFire (osRestart (osRestart osConstruct)) 0) 1).cbCount = 2 := by
  decide

/-- C7: refuted on the code.  `kill()` pushes a wrapper into the
reclamation queue but never clears the wrapper's `timerCallback` (and
the periodic sweep of lines 408-413 only drops queue slots).  Kill a
`MultiTimer` with repetitions remaining after its first fire: the host
holds no pending handle, yet a late invocation of the retired wrapper
runs the internal callback, which invokes the caller's callback again
(`call 1`) and `this.restart()` arms a fresh host handle - the killed
timer is rescheduled.  (The invocation does not throw: the wrapper's
`if (timerCallback)` guard makes it total; what fails is the
no-resurrection half of the claim.) -/
theorem killed_wrapper_reinvokes_and_reschedules :
    (mtKill (mtHostFire (mtConstruct 2) 0)).pending = [] ∧
    (mtWrapperInvoke (mtKill (mtHostFire (mtConstruct 2) 0))).pending = [2] ∧
    (mtWrapperInvoke (mtKill (mtHostFire (mtConstruct 2) 0))).events =
      [MEvent.call 0, MEvent.call 1] := by
  decide

/-- C8: refuted on the code.  Construct a `Timer` with callback token
7: a handle is armed whose wrapper targets 7, and the timer is in the
spec's Running state.  Set the callback to 8: the setter's guard reads
`isRunning()`, i.e. the `_running` field, which is `false` (see C2),
so no automatic restart happens - the pending invocation still carries
the wrapper built over the old callback 7, and nothing is re-armed
with the new callback 8.  (The not-running half of the claim - no
restart - is what actually happens, but it happens in the state the
spec calls Running.) -/
theorem callback_set_does_not_rearm :
    (cbSet (cbConstruct 7) 8).running = false ∧
    (cbSet (cbConstruct 7) 8).callbackTok = 8 ∧
    (cbSet (cbConstruct 7) 8).pending = [(0, 7)] ∧
    (cbSet (cbConstruct 7) 8).next = 1 := by
  decide

end TimersJS
